import Mathlib

/-!
Verification development for the IFI_Bus_Attendence scan-ingestion pipeline.

Server side: a shallow embedding of the `POST /api/scan` handler of
`attendence-backend/server.js` (validation, parameterized insert, response
construction, and the catch-block error classification).

Client side: a shallow embedding of the capture state machine of
`app/index.tsx` (the `scanned` / `isActive` React state, barcode detection,
reset, focus handling and the Captured-state control panel).
-/

/-- A JavaScript value as it reaches the handler after JSON body parsing:
a string, a number, or absent (`undefined`). This is enough to model the
truthiness checks and the `.length` property access of the validation code. -/
inductive JSVal where
  | str (s : String)
  | num (n : Int)
  | undef
deriving DecidableEq, Repr

/-- JavaScript truthiness: `""` and `0` are falsy, `undefined` is falsy. -/
def JSVal.truthy : JSVal → Bool
  | .str s => s ≠ ""
  | .num n => n ≠ 0
  | .undef => false

/-- The `.length` property: defined (character count) for strings, and
`undefined` (`none`) for numbers and for `undefined` itself. -/
def JSVal.lengthProp : JSVal → Option Nat
  | .str s => some s.length
  | _ => none

/-- `v || d` for a string default `d`: the value itself when truthy,
otherwise the default (so an empty string is also replaced). -/
def JSVal.orDefault (v : JSVal) (d : String) : JSVal :=
  if v.truthy then v else .str d

/-- The request body of `POST /api/scan` as destructured on server.js line 76:
`const (employeeId, scanDateTime, scanType, deviceInfo) = req.body`. -/
structure ReqBody where
  employeeId : JSVal
  scanDateTime : JSVal
  scanType : JSVal
  deviceInfo : JSVal
deriving DecidableEq, Repr

/-- server.js line 82. -/
def requiredMsg : String := "Employee ID and scan time are required"

/-- server.js line 90. -/
def lengthMsg : String := "Employee ID must be between 3 and 50 characters"

/-- The two validation checks of server.js lines 79-92, in source order,
first failure wins. `none` means validation passes. The second check reads
`employeeId.length`; when that property is `undefined` (a number value),
both comparisons `undefined < 3` and `undefined > 50` are false in
JavaScript, so the check passes. -/
def validateScan (b : ReqBody) : Option String :=
  if !b.employeeId.truthy || !b.scanDateTime.truthy then
    some requiredMsg
  else
    match b.employeeId.lengthProp with
    | some l => if l < 3 || l > 50 then some lengthMsg else none
    | none => none

/-- The bound parameters of the insert, server.js lines 110-113.
`scanDateTime` is bound as `new Date(scanDateTime)`; the date conversion is
a pure function of the raw value, which we record here. -/
structure InsertParams where
  employeeId : JSVal
  scanDateTime : JSVal
  scanType : JSVal
  deviceInfo : JSVal
deriving DecidableEq, Repr

/-- Parameters built from the body: `scanType || "UNKNOWN"` and
`deviceInfo || "Mobile Scanner"` (server.js lines 112-113). -/
def mkParams (b : ReqBody) : InsertParams :=
  { employeeId := b.employeeId
    scanDateTime := b.scanDateTime
    scanType := b.scanType.orDefault "UNKNOWN"
    deviceInfo := b.deviceInfo.orDefault "Mobile Scanner" }

/-- The fixed parameterized query text of server.js lines 99-104: only
`@`-placeholders, no interpolated values. -/
def sqlQuery : String :=
  "INSERT INTO AttendanceScans (EmployeeID, ScanDateTime, BarcodeType, DeviceInfo, CreatedAt) VALUES (@employeeId, @scanDateTime, @scanType, @deviceInfo, GETDATE())"

/-- Observable storage actions of one request: acquiring the pool
(`sql.connect`), executing a parameterized insert, releasing the pool
(`pool.close`). -/
inductive DbAction where
  | connect
  | insert (query : String) (p : InsertParams)
  | close
deriving DecidableEq, Repr

/-- An `mssql` driver error as inspected by the catch block: a string
`code` property, a numeric `number` property (either may be absent), and a
`message`. -/
structure DbError where
  code : Option String
  number : Option Int
  message : String
deriving DecidableEq, Repr

/-- Where the storage interaction fails, if at all: `sql.connect` rejects,
`request.query` rejects, or everything succeeds. -/
inductive DbResult where
  | connectFail (e : DbError)
  | queryFail (e : DbError)
  | ok
deriving DecidableEq, Repr

/-- `error.code || error.number` (server.js line 159): the string code when
truthy, else the number when truthy, else absent (and `JSON.stringify`
drops an undefined field). -/
inductive ErrCode where
  | str (s : String)
  | num (n : Int)
deriving DecidableEq, Repr

def jsErrCode (e : DbError) : Option ErrCode :=
  let numPart : Option ErrCode :=
    match e.number with
    | some n => if n = 0 then none else some (.num n)
    | none => none
  match e.code with
  | some c => if c = "" then numPart else some (.str c)
  | none => numPart

/-- The `data` object of the 201 response (server.js lines 124-129): the
raw input `employeeId`, `scanDateTime` and `scanType` (not the defaulted
insert value), plus the server-assigned `recordedAt`. -/
structure RespData where
  employeeId : JSVal
  scanDateTime : JSVal
  scanType : JSVal
  recordedAt : Nat
deriving DecidableEq, Repr

/-- A JSON response of the handler: HTTP status plus the body fields that
occur across the handler paths (`error`, `errorCode` and `data` are absent,
`none`, on the paths that do not set them). -/
structure ScanResponse where
  status : Nat
  success : Bool
  message : String
  error : Option String
  errorCode : Option ErrCode
  data : Option RespData
deriving DecidableEq, Repr

/-- The catch block of server.js lines 135-161: `errorMessage` starts as
"Failed to record scan" and `statusCode` as 500; the if/else chain then
inspects `error.code` and `error.number`. The `number === 208` branch
replaces only the message, leaving the status at 500. The response carries
the raw diagnostic under `error` and `errorCode`. -/
def catchResp (e : DbError) : ScanResponse :=
  let ms : String × Nat :=
    if e.code = some "ELOGIN" then
      ("Database login failed. Check credentials.", 401)
    else if e.code = some "ESOCKET" then
      ("Cannot connect to SQL Server. Check server address and firewall.", 503)
    else if e.number = some 208 then
      ("Table not found. Check table name in database.", 500)
    else if e.number = some 547 then
      ("Employee ID not found in system.", 400)
    else
      ("Failed to record scan", 500)
  { status := ms.2, success := false, message := ms.1,
    error := some e.message, errorCode := jsErrCode e, data := none }

/-- A 400 validation response (server.js lines 80-84 and 88-91): body is
only `success: false` and `message` — no `error`, `errorCode` or `data`. -/
def validationResp (msg : String) : ScanResponse :=
  { status := 400, success := false, message := msg,
    error := none, errorCode := none, data := none }

/-- The `POST /api/scan` handler (server.js lines 72-162) as a function of
the request body, the storage outcome, the wall-clock time at which the
request was received, and the (nonnegative) time elapsed until the success
response is built. It returns the storage-action trace of the request and
the HTTP response.

Paths, following the source: a validation failure returns 400 before any
storage access; otherwise the pool is acquired and the parameterized insert
executed. On success, the 201 response is built (with
`recordedAt = new Date().toISOString()`, modelled as `reqTime + elapsed`
under a monotone wall clock) and then `pool.close()` runs. If
`request.query` rejects, control jumps to the catch block, which builds the
error response; note that this path never reaches the `pool.close()` call
on line 133. If `sql.connect` itself rejects, no pool was acquired. -/
def scanHandler (b : ReqBody) (db : DbResult) (reqTime elapsed : Nat) :
    List DbAction × ScanResponse :=
  match validateScan b with
  | some msg => ([], validationResp msg)
  | none =>
    match db with
    | .connectFail e => ([], catchResp e)
    | .queryFail e => ([.connect, .insert sqlQuery (mkParams b)], catchResp e)
    | .ok =>
      ([.connect, .insert sqlQuery (mkParams b), .close],
       { status := 201, success := true,
         message := "Scan recorded successfully",
         error := none, errorCode := none,
         data := some { employeeId := b.employeeId,
                        scanDateTime := b.scanDateTime,
                        scanType := b.scanType,
                        recordedAt := reqTime + elapsed } })

/-- Whether an action is an insert. -/
def DbAction.isInsert : DbAction → Bool
  | .insert _ _ => true
  | _ => false

/-- The ingestion-error taxonomy of the design (spec section 7). -/
inductive IngestionError where
  | authFailure
  | unreachable
  | referenceViolation
  | schemaMismatch
  | unknown
deriving DecidableEq, Repr

/-- The classification the catch block performs, read off its if/else
chain: credential rejection, socket failure, invalid object name 208,
foreign-key violation 547, anything else. A total function, so each error
gets exactly one kind. -/
def classify (e : DbError) : IngestionError :=
  if e.code = some "ELOGIN" then .authFailure
  else if e.code = some "ESOCKET" then .unreachable
  else if e.number = some 208 then .schemaMismatch
  else if e.number = some 547 then .referenceViolation
  else .unknown

/-- The status each taxonomy kind maps to, as the spec states it. -/
def ingestStatus : IngestionError → Nat
  | .authFailure => 401
  | .unreachable => 503
  | .referenceViolation => 400
  | .schemaMismatch => 500
  | .unknown => 500

/-- The camera facing of app/index.tsx. -/
inductive CameraType where
  | back
  | front
deriving DecidableEq, Repr

/-- The React state of `BarcodeScannerScreen` (app/index.tsx lines 17-23)
that the capture behaviour depends on. `scanned = false` is the Idle state
(detection enabled), `scanned = true` the Captured state (a candidate
held). `scanTime` holds the captured wall-clock instant; the
`toLocaleString` rendering of that instant is presentation only, and the
cleared empty display corresponds to `none`. -/
structure ScannerState where
  scanned : Bool
  scannedData : String
  scanTime : Option Nat
  facing : CameraType
  isActive : Bool
deriving DecidableEq, Repr

/-- The initial `useState` values: not scanned, empty data and time, back
camera, active. -/
def initialState : ScannerState :=
  { scanned := false, scannedData := "", scanTime := none,
    facing := .back, isActive := true }

/-- Events driving the screen state: a barcode detection (symbology, decoded
payload and the current wall-clock instant), the explicit reset
(`resetScanner`), the focus callbacks of `useFocusEffect`, and the camera
flip. -/
inductive ClientEvent where
  | detection (ty : String) (data : String) (now : Nat)
  | reset
  | focusGain
  | focusLoss
  | flip
deriving DecidableEq, Repr

/-- One step of the screen. A detection reaches `handleBarCodeScanned` only
when the camera view is rendered (`isActive`, line 108) and a handler is
attached (`onBarcodeScanned` is `undefined` once `scanned`, line 121); the
handler itself re-checks `!scanned` (line 45) and then stores the payload
and the current time (lines 46-59). `resetScanner` (lines 77-81) clears all
three. The focus callbacks (lines 35-42) only toggle `isActive`.
`toggleCameraFacing` (lines 83-85) only flips the camera. -/
def step (s : ScannerState) : ClientEvent → ScannerState
  | .detection _ data now =>
    if s.isActive && !s.scanned then
      { s with scanned := true, scannedData := data, scanTime := some now }
    else s
  | .reset => { s with scanned := false, scannedData := "", scanTime := none }
  | .focusGain => { s with isActive := true }
  | .focusLoss => { s with isActive := false }
  | .flip =>
    { s with facing := if s.facing = .back then .front else .back }

/-- Side effects an interaction can produce besides state updates: a network
request (with its payload) or a console log. -/
inductive Effect where
  | network (payload : String)
  | log (m : String)
deriving DecidableEq, Repr

/-- Whether an effect is a network request. -/
def Effect.isNetwork : Effect → Bool
  | .network _ => true
  | _ => false

/-- The interactions available to the user while a candidate is held
(`scanned = true`): the "Scan Again" and "Flip Camera" buttons of the
controls panel (lines 158-185) and the "OK" / "Scan Again" buttons of the
alert shown on capture (lines 62-73). -/
inductive UIAction where
  | scanAgainBtn
  | flipBtn
  | alertOk
  | alertScanAgain
deriving DecidableEq, Repr

/-- All interactions reachable from the Captured state. -/
def capturedActions : List UIAction :=
  [.scanAgainBtn, .flipBtn, .alertOk, .alertScanAgain]

/-- Effect semantics of each Captured-state interaction, from the source:
both "Scan Again" buttons call `resetScanner` (no other effect), "Flip
Camera" calls `toggleCameraFacing`, and the alert "OK" button only logs
"OK Pressed" (line 66). No interaction of the screen issues a network
request: the source contains no submission call (its own note on lines
64 and 183 says the data will be sent "when backend is implemented"). -/
def applyUI (s : ScannerState) : UIAction → ScannerState × List Effect
  | .scanAgainBtn => (step s .reset, [])
  | .flipBtn => (step s .flip, [])
  | .alertOk => (s, [.log "OK Pressed"])
  | .alertScanAgain => (step s .reset, [])

/-! ## Concrete fixtures -/

/-- The worked scenario body of the design: a valid candidate. -/
def validBody : ReqBody :=
  { employeeId := .str "EMP001", scanDateTime := .str "2024-01-15T09:00:00Z",
    scanType := .undef, deviceInfo := .undef }

/-- A body whose employeeId is the empty string. -/
def emptyIdBody : ReqBody :=
  { employeeId := .str "", scanDateTime := .str "2024-01-15T09:00:00Z",
    scanType := .undef, deviceInfo := .undef }

/-- A foreign-key violation as raised by the driver during the insert. -/
def fkError : DbError :=
  { code := none, number := some 547, message := "FK violation" }

/-- A body whose employeeId is the JSON number 123456. -/
def numericIdBody : ReqBody :=
  { employeeId := .num 123456, scanDateTime := .str "2024-01-15T09:00:00Z",
    scanType := .undef, deviceInfo := .undef }

/-- A Captured screen state: the first detection applied to the initial
state. -/
def capturedEMP : ScannerState :=
  step initialState (.detection "qr" "EMP001" 5)

/-! ## Theorems -/

/-- C1: for every candidate that passes validation and whose storage insert
succeeds, the handler performs exactly one parameterized insert (the fixed
placeholder query bound with the full ScanEvent, `scanType` defaulting to
"UNKNOWN" and `deviceInfo` to "Mobile Scanner" when absent) and responds
201 with data carrying the input employeeId, scanDateTime and scanType and
a server-assigned `recordedAt` no earlier than the request-received time. -/
theorem scan_valid_insert_and_201 (b : ReqBody) (reqTime elapsed : Nat)
    (hv : validateScan b = none) :
    (scanHandler b .ok reqTime elapsed).1.filter DbAction.isInsert
        = [.insert sqlQuery (mkParams b)] ∧
    (b.scanType = .undef → (mkParams b).scanType = .str "UNKNOWN") ∧
    (b.deviceInfo = .undef → (mkParams b).deviceInfo = .str "Mobile Scanner") ∧
    (mkParams b).employeeId = b.employeeId ∧
    (mkParams b).scanDateTime = b.scanDateTime ∧
    (scanHandler b .ok reqTime elapsed).2.status = 201 ∧
    (scanHandler b .ok reqTime elapsed).2.success = true ∧
    (scanHandler b .ok reqTime elapsed).2.data
        = some { employeeId := b.employeeId, scanDateTime := b.scanDateTime,
                 scanType := b.scanType, recordedAt := reqTime + elapsed } ∧
    reqTime ≤ reqTime + elapsed := by
  refine ⟨?_, ?_, ?_, rfl, rfl, ?_, ?_, ?_, Nat.le_add_right _ _⟩
  · simp [scanHandler, hv, DbAction.isInsert]
  · intro h
    simp [mkParams, JSVal.orDefault, h, JSVal.truthy]
  · intro h
    simp [mkParams, JSVal.orDefault, h, JSVal.truthy]
  · simp [scanHandler, hv]
  · simp [scanHandler, hv]
  · simp [scanHandler, hv]

/-- C1 witness: the scenario body at request time 0, elapsed 5. -/
theorem scan_valid_insert_and_201_witness :
    (scanHandler validBody .ok 0 5).1.filter DbAction.isInsert
        = [.insert sqlQuery (mkParams validBody)] ∧
    (validBody.scanType = .undef → (mkParams validBody).scanType = .str "UNKNOWN") ∧
    (validBody.deviceInfo = .undef → (mkParams validBody).deviceInfo = .str "Mobile Scanner") ∧
    (mkParams validBody).employeeId = validBody.employeeId ∧
    (mkParams validBody).scanDateTime = validBody.scanDateTime ∧
    (scanHandler validBody .ok 0 5).2.status = 201 ∧
    (scanHandler validBody .ok 0 5).2.success = true ∧
    (scanHandler validBody .ok 0 5).2.data
        = some { employeeId := validBody.employeeId,
                 scanDateTime := validBody.scanDateTime,
                 scanType := validBody.scanType, recordedAt := 0 + 5 } ∧
    0 ≤ 0 + 5 :=
  scan_valid_insert_and_201 validBody 0 5 (by decide)

/-- C2: a candidate missing employeeId or missing scanDateTime is rejected
with status 400 and the required-fields message, and the storage-action
trace is empty — no storage access is attempted. -/
theorem scan_missing_field_rejected (b : ReqBody) (db : DbResult)
    (reqTime elapsed : Nat)
    (h : b.employeeId = .undef ∨ b.scanDateTime = .undef) :
    scanHandler b db reqTime elapsed = ([], validationResp requiredMsg) ∧
    (validationResp requiredMsg).status = 400 := by
  have hv : validateScan b = some requiredMsg := by
    rcases h with h | h <;> simp [validateScan, h, JSVal.truthy]
  exact ⟨by simp [scanHandler, hv], rfl⟩

/-- C2 witness: a body with no employeeId. -/
theorem scan_missing_field_rejected_witness :
    scanHandler { employeeId := .undef, scanDateTime := .str "2024-01-15T09:00:00Z",
                  scanType := .undef, deviceInfo := .undef } .ok 0 0
        = ([], validationResp requiredMsg) ∧
    (validationResp requiredMsg).status = 400 :=
  scan_missing_field_rejected _ .ok 0 0 (Or.inl rfl)

/-- C3 counterexample: an empty-string employeeId has length 0 < 3, yet the
handler rejects it with the required-fields message of the missing-field
check (the empty string is falsy), not the InvalidFormat length message. -/
theorem scan_empty_id_rejected_as_missing :
    (scanHandler emptyIdBody .ok 0 0).2 = validationResp requiredMsg ∧
    (scanHandler emptyIdBody .ok 0 0).2.message ≠ lengthMsg := by
  constructor
  · rfl
  · decide

/-- C3 amended: a candidate whose employeeId is a nonempty string of length
< 3 or > 50, with scanDateTime present, is rejected with status 400 and the
length message, with no storage access; the empty string is instead caught
by the missing-field truthiness check. -/
theorem scan_bad_length_rejected (b : ReqBody) (db : DbResult)
    (reqTime elapsed : Nat) (s : String)
    (he : b.employeeId = .str s) (hne : s ≠ "")
    (hd : b.scanDateTime.truthy = true)
    (hlen : s.length < 3 ∨ 50 < s.length) :
    scanHandler b db reqTime elapsed = ([], validationResp lengthMsg) ∧
    (validationResp lengthMsg).status = 400 := by
  have hv : validateScan b = some lengthMsg := by
    have ht : (JSVal.str s).truthy = true := by simp [JSVal.truthy, hne]
    rcases hlen with h | h <;>
      simp [validateScan, he, ht, hd, JSVal.lengthProp, h]
  exact ⟨by simp [scanHandler, hv], rfl⟩

/-- C3 amended witness: the scenario body with employeeId "AB". -/
theorem scan_bad_length_rejected_witness :
    scanHandler { employeeId := .str "AB", scanDateTime := .str "2024-01-15T09:00:00Z",
                  scanType := .undef, deviceInfo := .undef } .ok 0 0
        = ([], validationResp lengthMsg) ∧
    (validationResp lengthMsg).status = 400 :=
  scan_bad_length_rejected _ .ok 0 0 "AB" rfl (by decide) (by decide)
    (Or.inl (by decide))

/-- C4: every storage failure during ingest (whether the connect or the
query rejects) is answered by the catch block, whose status is exactly the
fixed taxonomy mapping applied to the (total, hence unique) classification
of the error: AuthFailure 401, Unreachable 503, ReferenceViolation 400,
SchemaMismatch 500, Unknown 500 — and the kinds correspond to credential
rejection (code ELOGIN), socket failure (code ESOCKET), invalid object
name (number 208) and foreign-key violation (number 547). -/
theorem scan_storage_error_classified (b : ReqBody) (e : DbError)
    (reqTime elapsed : Nat) (hv : validateScan b = none) :
    (scanHandler b (.queryFail e) reqTime elapsed).2 = catchResp e ∧
    (scanHandler b (.connectFail e) reqTime elapsed).2 = catchResp e ∧
    (catchResp e).status = ingestStatus (classify e) ∧
    (classify e = .authFailure ↔ e.code = some "ELOGIN") ∧
    (classify e = .unreachable ↔ e.code ≠ some "ELOGIN" ∧ e.code = some "ESOCKET") ∧
    (classify e = .schemaMismatch ↔ e.code ≠ some "ELOGIN" ∧ e.code ≠ some "ESOCKET"
        ∧ e.number = some 208) ∧
    (classify e = .referenceViolation ↔ e.code ≠ some "ELOGIN" ∧ e.code ≠ some "ESOCKET"
        ∧ e.number ≠ some 208 ∧ e.number = some 547) := by
  refine ⟨by simp [scanHandler, hv], by simp [scanHandler, hv], ?_, ?_, ?_, ?_, ?_⟩ <;>
    · simp only [catchResp, classify, ingestStatus]
      split_ifs <;> simp_all

/-- C4 witness: a socket failure on the scenario body maps to 503. -/
theorem scan_storage_error_classified_witness :
    (scanHandler validBody
        (.queryFail { code := some "ESOCKET", number := none, message := "socket hang up" })
        0 0).2
      = catchResp { code := some "ESOCKET", number := none, message := "socket hang up" } ∧
    (scanHandler validBody
        (.connectFail { code := some "ESOCKET", number := none, message := "socket hang up" })
        0 0).2
      = catchResp { code := some "ESOCKET", number := none, message := "socket hang up" } ∧
    (catchResp { code := some "ESOCKET", number := none, message := "socket hang up" }).status
      = ingestStatus (classify { code := some "ESOCKET", number := none, message := "socket hang up" }) ∧
    (classify { code := some "ESOCKET", number := none, message := "socket hang up" } = .authFailure
      ↔ ({ code := some "ESOCKET", number := none, message := "socket hang up" } : DbError).code = some "ELOGIN") ∧
    (classify { code := some "ESOCKET", number := none, message := "socket hang up" } = .unreachable
      ↔ ({ code := some "ESOCKET", number := none, message := "socket hang up" } : DbError).code ≠ some "ELOGIN"
        ∧ ({ code := some "ESOCKET", number := none, message := "socket hang up" } : DbError).code = some "ESOCKET") ∧
    (classify { code := some "ESOCKET", number := none, message := "socket hang up" } = .schemaMismatch
      ↔ ({ code := some "ESOCKET", number := none, message := "socket hang up" } : DbError).code ≠ some "ELOGIN"
        ∧ ({ code := some "ESOCKET", number := none, message := "socket hang up" } : DbError).code ≠ some "ESOCKET"
        ∧ ({ code := some "ESOCKET", number := none, message := "socket hang up" } : DbError).number = some 208) ∧
    (classify { code := some "ESOCKET", number := none, message := "socket hang up" } = .referenceViolation
      ↔ ({ code := some "ESOCKET", number := none, message := "socket hang up" } : DbError).code ≠ some "ELOGIN"
        ∧ ({ code := some "ESOCKET", number := none, message := "socket hang up" } : DbError).code ≠ some "ESOCKET"
        ∧ ({ code := some "ESOCKET", number := none, message := "socket hang up" } : DbError).number ≠ some 208
        ∧ ({ code := some "ESOCKET", number := none, message := "socket hang up" } : DbError).number = some 547) :=
  scan_storage_error_classified validBody _ 0 0 (by decide)

/-- C6: a valid request whose insert fails (here a foreign-key violation)
acquires the pool but never releases it — the catch path of the handler
responds without reaching the `pool.close()` call, so the trace holds a
`connect` and no `close`. The success path, by contrast, does close. -/
theorem scan_error_path_leaks_connection :
    (scanHandler validBody (.queryFail fkError) 0 0).1
        = [.connect, .insert sqlQuery (mkParams validBody)] ∧
    .connect ∈ (scanHandler validBody (.queryFail fkError) 0 0).1 ∧
    .close ∉ (scanHandler validBody (.queryFail fkError) 0 0).1 ∧
    .close ∈ (scanHandler validBody .ok 0 0).1 := by
  refine ⟨rfl, ?_, ?_, ?_⟩ <;> decide

/-- C9 counterexample: the missing-field validation failure is a failure
response (success false) whose body has no `error` and no `errorCode`
field, so not every failure response has the
(success, message, error, errorCode) shape. -/
theorem validation_failure_lacks_error_fields :
    (scanHandler { employeeId := .undef, scanDateTime := .undef,
                   scanType := .undef, deviceInfo := .undef } .ok 0 0).2.success = false ∧
    (scanHandler { employeeId := .undef, scanDateTime := .undef,
                   scanType := .undef, deviceInfo := .undef } .ok 0 0).2.status = 400 ∧
    (scanHandler { employeeId := .undef, scanDateTime := .undef,
                   scanType := .undef, deviceInfo := .undef } .ok 0 0).2.error = none ∧
    (scanHandler { employeeId := .undef, scanDateTime := .undef,
                   scanType := .undef, deviceInfo := .undef } .ok 0 0).2.errorCode = none := by
  decide

/-- C9 amended: storage-failure responses built by the catch block carry
success false, a caller-safe message, the raw diagnostic message under
`error` and the driver code-or-number under `errorCode`; the two validation
failure responses instead carry only success false and a message, with no
`error`/`errorCode`. -/
theorem failure_response_shape (e : DbError) (msg : String) :
    (catchResp e).success = false ∧
    (catchResp e).error = some e.message ∧
    (catchResp e).errorCode = jsErrCode e ∧
    (catchResp e).data = none ∧
    (validationResp msg).success = false ∧
    (validationResp msg).message = msg ∧
    (validationResp msg).error = none ∧
    (validationResp msg).errorCode = none := by
  refine ⟨?_, ?_, ?_, ?_, rfl, rfl, rfl, rfl⟩ <;> simp [catchResp]

/-- C10: a request body whose employeeId is a nonzero number (truthy, but
with no `.length` property) and whose scanDateTime is truthy passes both
validation checks, and the handler proceeds to the storage insert
(responding 201 when storage succeeds) instead of returning a 400. -/
theorem numeric_employee_id_accepted (b : ReqBody) (n : Int)
    (reqTime elapsed : Nat)
    (he : b.employeeId = .num n) (hn : n ≠ 0)
    (hd : b.scanDateTime.truthy = true) :
    validateScan b = none ∧
    (scanHandler b .ok reqTime elapsed).1.filter DbAction.isInsert
        = [.insert sqlQuery (mkParams b)] ∧
    (scanHandler b .ok reqTime elapsed).2.status = 201 := by
  have hv : validateScan b = none := by
    have ht : (JSVal.num n).truthy = true := by simp [JSVal.truthy, hn]
    simp [validateScan, he, ht, hd, JSVal.lengthProp]
  exact ⟨hv, by simp [scanHandler, hv, DbAction.isInsert], by simp [scanHandler, hv]⟩

/-- C10 witness: employeeId the JSON number 123456. -/
theorem numeric_employee_id_accepted_witness :
    validateScan numericIdBody = none ∧
    (scanHandler numericIdBody .ok 0 0).1.filter DbAction.isInsert
        = [.insert sqlQuery (mkParams numericIdBody)] ∧
    (scanHandler numericIdBody .ok 0 0).2.status = 201 :=
  numeric_employee_id_accepted numericIdBody 123456 0 0 rfl (by decide) (by decide)

/-- Helper: once a candidate is held (`scanned = true`), a detection event
leaves the state unchanged — `onBarcodeScanned` is detached and the handler
guard fails. -/
theorem step_detection_of_scanned (s : ScannerState) (ty d : String) (now : Nat)
    (h : s.scanned = true) : step s (.detection ty d now) = s := by
  simp [step, h]

/-- Helper: a whole list of detection events leaves a `scanned` state
unchanged. -/
theorem foldl_detections_of_scanned (l : List (String × String × Nat))
    (s : ScannerState) (h : s.scanned = true) :
    List.foldl step s (l.map fun r => .detection r.1 r.2.1 r.2.2) = s := by
  induction l with
  | nil => rfl
  | cons a l ih =>
    simp only [List.map_cons, List.foldl_cons,
      step_detection_of_scanned s a.1 a.2.1 a.2.2 h]
    exact ih

/-- C5: starting from the initial (Idle, active) screen state, the first
detection D1 produces the held candidate — `scanned` becomes true with the
payload and wall-clock instant of D1 — and any further sequence of
detections leaves that state exactly as it was; the explicit reset returns
the machine to Idle. -/
theorem first_detection_wins (ty1 d1 : String) (t1 : Nat)
    (rest : List (String × String × Nat)) :
    (step initialState (.detection ty1 d1 t1)).scanned = true ∧
    (step initialState (.detection ty1 d1 t1)).scannedData = d1 ∧
    (step initialState (.detection ty1 d1 t1)).scanTime = some t1 ∧
    List.foldl step (step initialState (.detection ty1 d1 t1))
        (rest.map fun r => .detection r.1 r.2.1 r.2.2)
      = step initialState (.detection ty1 d1 t1) ∧
    (step (step initialState (.detection ty1 d1 t1)) .reset).scanned = false := by
  have h1 : (step initialState (.detection ty1 d1 t1)).scanned = true := by
    simp [step, initialState]
  refine ⟨h1, ?_, ?_, foldl_detections_of_scanned rest _ h1, ?_⟩ <;>
    simp [step, initialState]

/-- C7 counterexample: a Captured screen that loses and then regains focus
keeps `scanned = true` and its candidate, whereas an explicit reset would
clear them: the focus cycle does not behave as a reset. -/
theorem focus_regain_does_not_reset :
    (step (step capturedEMP .focusLoss) .focusGain).scanned = true ∧
    (step (step capturedEMP .focusLoss) .focusGain).scannedData = "EMP001" ∧
    (step capturedEMP .reset).scanned = false ∧
    step (step capturedEMP .focusLoss) .focusGain ≠ step capturedEMP .reset := by
  refine ⟨rfl, rfl, rfl, ?_⟩
  decide

/-- C7 amended: a focus-loss/focus-regain cycle only re-enables the camera
view (`isActive := true`); the capture state — `scanned`, the held
candidate and its time — is exactly what it was before the cycle, so a
Captured machine stays Captured and only the explicit reset returns it to
Idle. -/
theorem focus_cycle_only_reactivates (s : ScannerState) :
    step (step s .focusLoss) .focusGain = { s with isActive := true } ∧
    (step (step s .focusLoss) .focusGain).scanned = s.scanned ∧
    (step (step s .focusLoss) .focusGain).scannedData = s.scannedData ∧
    (step (step s .focusLoss) .focusGain).scanTime = s.scanTime ∧
    (step s .reset).scanned = false := by
  refine ⟨rfl, rfl, rfl, rfl, rfl⟩

/-- C8 counterexample: in the Captured state none of the available
interactions (the Scan Again and Flip Camera buttons and the alert
buttons) produces a network effect — no submit action transmitting the
held candidate to the ingestion service exists in the screen. -/
theorem captured_has_no_submit :
    (capturedActions.all fun a =>
        ((applyUI capturedEMP a).2.all fun ef => !ef.isNetwork)) = true := by
  decide

/-- C8 amended: no submit action exists: from any screen state, every
Captured-panel interaction produces no network call; the alert OK leaves
the state untouched, Flip Camera keeps the held candidate, and only the
two Scan Again buttons (the explicit reset) clear `scanned`. -/
theorem captured_actions_no_network (s : ScannerState) :
    (capturedActions.all fun a =>
        ((applyUI s a).2.all fun ef => !ef.isNetwork)) = true ∧
    (applyUI s .alertOk).1 = s ∧
    (applyUI s .flipBtn).1.scanned = s.scanned ∧
    (applyUI s .flipBtn).1.scannedData = s.scannedData ∧
    (applyUI s .scanAgainBtn).1.scanned = false ∧
    (applyUI s .alertScanAgain).1.scanned = false := by
  refine ⟨?_, rfl, rfl, rfl, rfl, rfl⟩
  simp [capturedActions, applyUI, Effect.isNetwork]
